import Mathlib

/-!
A shallow embedding of the `vivaldi` crate (a Vivaldi-style network
coordinate model) and proofs about its core algorithm.

Rust `f64` values are modelled as real numbers (`ℝ`); `f64` division by
zero, NaN and infinity behaviour is outside this real-valued model and is
noted where it matters.  `std::time::Duration` values are modelled by
their value in seconds as a real number; the fallible conversion
`Duration::from_secs_f64` (which panics on negative or overflowing input)
is modelled as an `Option ℝ` returning `none` exactly on the panicking
inputs.  An `N`-dimensional vector (the `Vector` trait, implemented by
`Dimension2` / `Dimension3`) is modelled as `Fin n → ℝ` for arbitrary `n`.
The process-wide random source used by `new_random_unit_vec` is modelled
as an explicitly passed stream of sampled vectors `ℕ → Vec n`.
-/

open Classical

noncomputable section

/-- The N-dimensional vector type: `Vector` trait implementors
(`Dimension2`, `Dimension3`, ...) hold an array of `f64` components. -/
abbrev Vec (n : ℕ) : Type := Fin n → ℝ

variable {n : ℕ}

/-- `impl Mul<f64>`: componentwise scale of a vector by a scalar. -/
def Vec.mul (v : Vec n) (s : ℝ) : Vec n := fun i => v i * s

/-- `impl Div<f64>`: componentwise division of a vector by a scalar. -/
def Vec.div (v : Vec n) (s : ℝ) : Vec n := fun i => v i / s

/-- `Vector::magnitude`: the Euclidean norm, `(Σ vᵢ·vᵢ).sqrt()`, embedded
from the fold `self.0.iter().fold(0.0, |acc, v| acc + (v * v)).sqrt()`. -/
def magnitude (v : Vec n) : ℝ := Real.sqrt (∑ i, v i * v i)

/-- `const FLOAT_ZERO: f64 = 1.0e-8` from `model.rs`. -/
def FLOAT_ZERO : ℝ := 1e-8

/-- `const ERROR_LIMIT: f64 = 0.25` (the Ce algorithm value) from `model.rs`. -/
def ERROR_LIMIT : ℝ := 0.25

/-- `const MIN_HEIGHT: f64 = 1.0e-5` from `coordinate.rs`. -/
def MIN_HEIGHT : ℝ := 1e-5

/-- `Coordinate<V>` from `coordinate.rs`: a position vector, the estimated
position error, and the stored (raw) height above the Euclidean plane. -/
structure Coordinate (n : ℕ) where
  vector : Vec n
  error : ℝ
  height : ℝ

/-- `Coordinate::height()`, the floor-at-minimum accessor:
`if self.height < MIN_HEIGHT { return MIN_HEIGHT; } self.height`.
(The stored field is `Coordinate.height`; this is the method.) -/
def Coordinate.heightAcc (c : Coordinate n) : ℝ :=
  if c.height < MIN_HEIGHT then MIN_HEIGHT else c.height

/-- The seconds value computed inside `estimate_rtt`:
`magnitude(a.vector - b.vector) + a.height() + b.height()`. -/
def estimate_rtt_secs (a b : Coordinate n) : ℝ :=
  magnitude (a.vector - b.vector) + a.heightAcc + b.heightAcc

/-- The least number of seconds NOT representable by `std::time::Duration`:
`Duration::from_secs_f64` panics for values that are negative or reach
2^64 seconds (`Duration::MAX` is just below 2^64 seconds). -/
def durationMaxSecs : ℝ := 2 ^ 64

/-- `Duration::from_secs_f64`, modelled from the Rust standard library:
returns the seconds value when it is non-negative and below 2^64 seconds,
and `none` where the Rust function panics (negative or overflowing input;
NaN inputs do not exist in the real-valued model). -/
def from_secs_f64 (secs : ℝ) : Option ℝ :=
  if 0 ≤ secs ∧ secs < durationMaxSecs then some secs else none

/-- `estimate_rtt` from `model.rs`: the returned `Duration`, as an optional
seconds value (`none` where `Duration::from_secs_f64` panics). -/
def estimate_rtt (a b : Coordinate n) : Option ℝ :=
  from_secs_f64 (estimate_rtt_secs a b)

/-- The `debug_assert!` condition inside `UnitVector::new`:
`1.0 - vec.magnitude().0.abs() < FLOAT_ZERO`. -/
def unit_vector_assert (vec : Vec n) : Prop :=
  1 - |magnitude vec| < FLOAT_ZERO

/-- `unit_vector_for` from `model.rs`: the difference divided by its
magnitude, or `None` when the magnitude is below `FLOAT_ZERO`. -/
def unit_vector_for (vfrom vto : Vec n) : Option (Vec n) :=
  let diff := vfrom - vto
  let mag := magnitude diff
  if mag < FLOAT_ZERO then none else some (Vec.div diff mag)

/-- The index of the first sampled vector accepted by the retry loop in
`new_random_unit_vec` (the loop keeps sampling while the magnitude is not
above `FLOAT_ZERO`; if no sample is ever accepted the Rust loop diverges,
and this model returns index 0 as a junk value in that unreachable case). -/
def chosen_index (sample : ℕ → Vec n) : ℕ :=
  if h : ∃ k, FLOAT_ZERO < magnitude (sample k) then Nat.find h else 0

/-- `new_random_unit_vec` from `model.rs`: normalises the first sampled
vector whose magnitude exceeds `FLOAT_ZERO`. -/
def new_random_unit_vec (sample : ℕ → Vec n) : Vec n :=
  let vec := sample (chosen_index sample)
  Vec.div vec (magnitude vec)

/-- The unit direction used by `Model::observe`:
`match unit_vector_for(..) { Some(v) => v, None => new_random_unit_vec() }`. -/
def observe_unit_vec (self coord : Coordinate n) (sample : ℕ → Vec n) : Vec n :=
  match unit_vector_for self.vector coord.vector with
  | some v => v
  | none => new_random_unit_vec sample

/-- `Model<V>` from `model.rs`: holds exactly one `Coordinate`. -/
structure Model (n : ℕ) where
  coordinate : Coordinate n

/-- `Model::new()`: origin vector, error 2.0, height 0.1. -/
def Model.new : Model n :=
  ⟨⟨0, 2.0, 0.1⟩⟩

/-- `Model::observe` from `model.rs`, embedded line by line.  `rtt` is the
measured round-trip time in seconds; `sample` is the stream of random
vectors drawn by `Vector::random()` inside the degenerate-direction
fallback (unused on the non-degenerate path). -/
def Model.observe (m : Model n) (coord : Coordinate n) (rtt : ℝ)
    (sample : ℕ → Vec n) : Model n :=
  let self := m.coordinate
  let weight := self.error / (self.error + coord.error)
  let diff_vec := self.vector - coord.vector
  let diff_mag := magnitude diff_vec
  let dist := estimate_rtt_secs self coord
  let relative_error := |dist - rtt| / rtt
  let error := relative_error * ERROR_LIMIT * weight
    + self.error * (1 - ERROR_LIMIT * weight)
  let weighted_error := ERROR_LIMIT * weight
  let weighted_force := weighted_error * (rtt - dist)
  let unit_vec := observe_unit_vec self coord sample
  let new_height :=
    if FLOAT_ZERO < diff_mag then
      (self.heightAcc + coord.heightAcc) * weighted_force / diff_mag
        + self.heightAcc
    else self.heightAcc
  ⟨⟨fun i => self.vector i + Vec.mul unit_vec weighted_force i, error, new_height⟩⟩

/-- The error computed by `observe`, with the `f64` behaviour of the
sample-weight division made explicit: when the divisor `eᵢ + eⱼ` is zero
the Rust division (`0.0 / 0.0` for the in-scope non-negative errors)
yields NaN, which propagates through the error update so that no real
number is stored — modelled as `none`.  Away from that divisor the
computation is exactly the `error` expression of `Model.observe`. -/
def observe_error_f64 (m : Model n) (coord : Coordinate n) (rtt : ℝ) : Option ℝ :=
  if m.coordinate.error + coord.error = 0 then none
  else some ((|estimate_rtt_secs m.coordinate coord - rtt| / rtt) * ERROR_LIMIT
      * (m.coordinate.error / (m.coordinate.error + coord.error))
    + m.coordinate.error * (1 - ERROR_LIMIT
      * (m.coordinate.error / (m.coordinate.error + coord.error))))

/-- The magnitude is a square root, hence non-negative. -/
theorem magnitude_nonneg (v : Vec n) : 0 ≤ magnitude v :=
  Real.sqrt_nonneg _

/-- The floor-at-minimum accessor never returns less than `MIN_HEIGHT`. -/
theorem heightAcc_ge (c : Coordinate n) : MIN_HEIGHT ≤ c.heightAcc := by
  unfold Coordinate.heightAcc
  split
  · exact le_refl _
  · exact le_of_not_lt (by assumption)

/-- Swapping the two endpoints leaves the Euclidean norm of the difference
unchanged. -/
theorem magnitude_sub_comm (a b : Vec n) :
    magnitude (a - b) = magnitude (b - a) := by
  unfold magnitude
  congr 1
  refine Finset.sum_congr rfl fun i _ => ?_
  simp only [Pi.sub_apply]
  ring

/-- Evaluates the magnitude of a concrete 3-vector with one non-negative
non-zero component. -/
theorem magnitude_single (x : ℝ) (hx : 0 ≤ x) :
    magnitude (![x, 0, 0] : Vec 3) = x := by
  unfold magnitude
  rw [Fin.sum_univ_three]
  norm_num
  exact Real.sqrt_mul_self hx

/-- The magnitude of the zero vector is zero. -/
theorem magnitude_zero : magnitude (0 : Vec n) = 0 := by
  unfold magnitude
  simp

/-- Evaluates `estimate_rtt_secs` at two identical coordinates sitting at
the origin with stored height 1: the Euclidean term vanishes and each
accessor height is the stored 1, giving 2 seconds. -/
theorem estimate_rtt_secs_concrete :
    estimate_rtt_secs (Coordinate.mk (0 : Vec 3) 0 1) (Coordinate.mk (0 : Vec 3) 0 1) = 2 := by
  unfold estimate_rtt_secs Coordinate.heightAcc
  dsimp only
  rw [sub_self, magnitude_zero, if_neg (by norm_num [MIN_HEIGHT])]
  norm_num

/-- The concrete `estimate_rtt` call above returns 2 seconds. -/
theorem estimate_rtt_concrete :
    estimate_rtt (Coordinate.mk (0 : Vec 3) 0 1) (Coordinate.mk (0 : Vec 3) 0 1) = some 2 := by
  unfold estimate_rtt
  rw [estimate_rtt_secs_concrete]
  norm_num [from_secs_f64, durationMaxSecs]

/-- Claim C2: whenever `estimate_rtt(a, b)` returns a `Duration`, its value
in seconds equals `magnitude(a.vector - b.vector) + a.height() + b.height()`
with both heights read through the floor-at-minimum accessor. -/
theorem estimate_rtt_seconds_value (a b : Coordinate n) (d : ℝ)
    (hd : estimate_rtt a b = some d) :
    d = magnitude (a.vector - b.vector) + a.heightAcc + b.heightAcc := by
  unfold estimate_rtt from_secs_f64 at hd
  by_cases hc : 0 ≤ estimate_rtt_secs a b ∧ estimate_rtt_secs a b < durationMaxSecs
  · rw [if_pos hc] at hd
    exact (Option.some.inj hd).symm
  · rw [if_neg hc] at hd
    exact absurd hd (by simp)

/-- Witness for C2 at the concrete coordinates of `estimate_rtt_concrete`. -/
theorem estimate_rtt_seconds_value_witness :
    (2 : ℝ) = magnitude ((Coordinate.mk (0 : Vec 3) 0 1).vector
        - (Coordinate.mk (0 : Vec 3) 0 1).vector)
      + (Coordinate.mk (0 : Vec 3) 0 1).heightAcc
      + (Coordinate.mk (0 : Vec 3) 0 1).heightAcc :=
  estimate_rtt_seconds_value _ _ 2 estimate_rtt_concrete

/-- Claim C5: `estimate_rtt` is commutative — swapping the two coordinates
yields exactly the same returned `Duration` (panics included). -/
theorem estimate_rtt_comm (a b : Coordinate n) :
    estimate_rtt a b = estimate_rtt b a := by
  unfold estimate_rtt estimate_rtt_secs
  rw [magnitude_sub_comm]
  ring_nf

/-- Claim C6: the height accessor floors at `MIN_HEIGHT = 1e-5`: stored
heights ≤ 0 (and any stored height below the minimum) read as exactly 1e-5,
stored heights above the minimum read back unchanged, and every read is at
least 1e-5. -/
theorem coordinate_height_floor (c : Coordinate n) :
    (c.height ≤ 0 → c.heightAcc = 1e-5) ∧
    (c.height < MIN_HEIGHT → c.heightAcc = 1e-5) ∧
    (MIN_HEIGHT < c.height → c.heightAcc = c.height) ∧
    1e-5 ≤ c.heightAcc := by
  unfold Coordinate.heightAcc MIN_HEIGHT
  refine ⟨fun h => ?_, fun h => ?_, fun h => ?_, ?_⟩
  · rw [if_pos (lt_of_le_of_lt h (by norm_num))]
  · rw [if_pos h]
  · rw [if_neg (not_lt.mpr (le_of_lt h))]
  · split
    · exact le_refl _
    · exact le_of_not_lt (by assumption)

/-- Witness for C6: a coordinate with stored height 0 reads back 1e-5. -/
theorem coordinate_height_floor_witness :
    (Coordinate.mk (0 : Vec 3) 0 0).height ≤ 0 ∧
    (Coordinate.mk (0 : Vec 3) 0 0).heightAcc = 1e-5 :=
  ⟨le_refl 0, (coordinate_height_floor _).1 (le_refl 0)⟩

/-- Counterexample to C7 as stated: `estimate_rtt` does not return a
`Duration` for every pair of coordinates — at a coordinate whose vector
has a 2^64 component the computed seconds value overflows `Duration` and
`Duration::from_secs_f64` panics (modelled as `none`). -/
theorem estimate_rtt_overflow_none :
    estimate_rtt (Coordinate.mk (![2 ^ 64, 0, 0] : Vec 3) 0 0)
      (Coordinate.mk (0 : Vec 3) 0 0) = none := by
  have hmag : magnitude ((![2 ^ 64, 0, 0] : Vec 3) - (0 : Vec 3)) = 2 ^ 64 := by
    rw [sub_zero]
    exact magnitude_single _ (by positivity)
  have hsec : estimate_rtt_secs (Coordinate.mk (![2 ^ 64, 0, 0] : Vec 3) 0 0)
      (Coordinate.mk (0 : Vec 3) 0 0) = 2 ^ 64 + 1e-5 + 1e-5 := by
    unfold estimate_rtt_secs Coordinate.heightAcc MIN_HEIGHT
    dsimp only
    rw [hmag, if_pos (by norm_num)]
  unfold estimate_rtt
  rw [hsec]
  unfold from_secs_f64 durationMaxSecs
  rw [if_neg]
  rintro ⟨-, h2⟩
  norm_num at h2

/-- Claim C7 (amended): `estimate_rtt` is pure and, whenever the computed
seconds value is below `Duration`'s upper bound of 2^64 seconds, returns
that value as a `Duration` without failing; the computed value is never
negative. -/
theorem estimate_rtt_total_in_range (a b : Coordinate n)
    (h : estimate_rtt_secs a b < durationMaxSecs) :
    estimate_rtt a b = some (estimate_rtt_secs a b) := by
  have h1 := heightAcc_ge a
  have h2 := heightAcc_ge b
  have h3 := magnitude_nonneg (a.vector - b.vector)
  have hm : (0 : ℝ) < MIN_HEIGHT := by norm_num [MIN_HEIGHT]
  have h0 : 0 ≤ estimate_rtt_secs a b := by
    unfold estimate_rtt_secs
    linarith
  unfold estimate_rtt from_secs_f64
  rw [if_pos ⟨h0, h⟩]

/-- Witness for the amended C7 at the concrete in-range coordinates. -/
theorem estimate_rtt_total_in_range_witness :
    estimate_rtt (Coordinate.mk (0 : Vec 3) 0 1) (Coordinate.mk (0 : Vec 3) 0 1)
      = some (estimate_rtt_secs (Coordinate.mk (0 : Vec 3) 0 1)
          (Coordinate.mk (0 : Vec 3) 0 1)) :=
  estimate_rtt_total_in_range _ _
    (by rw [estimate_rtt_secs_concrete]; norm_num [durationMaxSecs])

/-- Claim C9: the debug assertion in `UnitVector::new` is one-sided — the
vector `[2, 0, 0]` of magnitude 2 passes the assertion even though its
magnitude differs from 1 by at least the 1e-8 tolerance (the check
`1.0 - vec.magnitude().0.abs() < FLOAT_ZERO` only bounds the magnitude
from below, contradicting the struct's documented magnitude-1 intent). -/
theorem unit_vector_assert_accepts_non_unit :
    unit_vector_assert (![2, 0, 0] : Vec 3) ∧
    FLOAT_ZERO ≤ |magnitude (![2, 0, 0] : Vec 3) - 1| := by
  have h2 : magnitude (![2, 0, 0] : Vec 3) = 2 := magnitude_single 2 (by norm_num)
  constructor
  · unfold unit_vector_assert FLOAT_ZERO
    rw [h2]
    norm_num
  · rw [h2]
    norm_num [FLOAT_ZERO]

/-- Claim C10: the estimated RTT is always at least 2e-5 seconds (the sum
of the two height floors), hence never zero, and any `Duration` actually
returned carries a value at least 2e-5 seconds. -/
theorem estimate_rtt_lower_bound (a b : Coordinate n) :
    2e-5 ≤ estimate_rtt_secs a b ∧
    ∀ d, estimate_rtt a b = some d → 2e-5 ≤ d ∧ d ≠ 0 := by
  have h1 := heightAcc_ge a
  have h2 := heightAcc_ge b
  have h3 := magnitude_nonneg (a.vector - b.vector)
  have hmin : MIN_HEIGHT = 1e-5 := rfl
  have hs : 2e-5 ≤ estimate_rtt_secs a b := by
    rw [hmin] at h1 h2
    unfold estimate_rtt_secs
    norm_num
    linarith
  refine ⟨hs, fun d hd => ?_⟩
  unfold estimate_rtt from_secs_f64 at hd
  by_cases hc : 0 ≤ estimate_rtt_secs a b ∧ estimate_rtt_secs a b < durationMaxSecs
  · rw [if_pos hc] at hd
    obtain rfl := Option.some.inj hd
    exact ⟨hs, ne_of_gt (lt_of_lt_of_le (by norm_num) hs)⟩
  · rw [if_neg hc] at hd
    exact absurd hd (by simp)

/-- Witness for C10 at the concrete call returning 2 seconds. -/
theorem estimate_rtt_lower_bound_witness :
    (2e-5 : ℝ) ≤ 2 ∧ (2 : ℝ) ≠ 0 :=
  (estimate_rtt_lower_bound _ _).2 2 estimate_rtt_concrete

/-- The height field of the coordinate produced by `observe`, as the
branch the source writes: the force-scaled update when the difference
magnitude exceeds `FLOAT_ZERO`, else the accessor-read current height. -/
theorem observe_height_eq (m : Model n) (coord : Coordinate n) (rtt : ℝ)
    (sample : ℕ → Vec n) :
    ((m.observe coord rtt sample).coordinate).height =
      if FLOAT_ZERO < magnitude (m.coordinate.vector - coord.vector) then
        (m.coordinate.heightAcc + coord.heightAcc)
            * (ERROR_LIMIT * (m.coordinate.error / (m.coordinate.error + coord.error))
              * (rtt - estimate_rtt_secs m.coordinate coord))
            / magnitude (m.coordinate.vector - coord.vector)
          + m.coordinate.heightAcc
      else m.coordinate.heightAcc := rfl

/-- The degenerate-direction test fails at two coincident origin vectors:
their difference has magnitude 0, not above `FLOAT_ZERO`. -/
theorem not_float_zero_lt_mag_zero :
    ¬ FLOAT_ZERO < magnitude ((0 : Vec 3) - (0 : Vec 3)) := by
  rw [sub_zero, magnitude_zero]
  norm_num [FLOAT_ZERO]

/-- Claim C3 (amended): when the difference magnitude exceeds 1e-8 the new
height is `(hᵢ + hⱼ) · F / diffMag + hᵢ` with accessor-read heights;
otherwise the new coordinate stores the accessor-read (floored) current
height `max(stored, 1e-5)`, not the raw stored height. -/
theorem observe_height_update (m : Model n) (coord : Coordinate n) (rtt : ℝ)
    (sample : ℕ → Vec n) :
    (FLOAT_ZERO < magnitude (m.coordinate.vector - coord.vector) →
      ((m.observe coord rtt sample).coordinate).height =
        (m.coordinate.heightAcc + coord.heightAcc)
            * (ERROR_LIMIT * (m.coordinate.error / (m.coordinate.error + coord.error))
              * (rtt - estimate_rtt_secs m.coordinate coord))
            / magnitude (m.coordinate.vector - coord.vector)
          + m.coordinate.heightAcc) ∧
    (¬ FLOAT_ZERO < magnitude (m.coordinate.vector - coord.vector) →
      ((m.observe coord rtt sample).coordinate).height = m.coordinate.heightAcc) := by
  constructor
  · intro h
    rw [observe_height_eq, if_pos h]
  · intro h
    rw [observe_height_eq, if_neg h]

/-- Witness for the amended C3: at coincident coordinates the new height
is the accessor-read current height. -/
theorem observe_height_update_witness :
    (((Model.mk (Coordinate.mk (0 : Vec 3) 2 0)).observe
        (Coordinate.mk (0 : Vec 3) 2 (1 / 10)) 1
        (fun _ => ![1, 0, 0])).coordinate).height =
      (Model.mk (Coordinate.mk (0 : Vec 3) 2 0)).coordinate.heightAcc :=
  (observe_height_update _ _ _ _).2 not_float_zero_lt_mag_zero

/-- Counterexample to C3 as stated: in the degenerate branch (difference
magnitude not above 1e-8) the new coordinate does NOT store the previous
raw stored height — starting from stored height 0 the new stored height is
the floored 1e-5, because the source initialises `new_height` from the
accessor `self.coordinate.height()` rather than the raw field. -/
theorem observe_height_raw_not_preserved :
    magnitude ((Model.mk (Coordinate.mk (0 : Vec 3) 2 0)).coordinate.vector
        - (Coordinate.mk (0 : Vec 3) 2 (1 / 10)).vector) ≤ FLOAT_ZERO ∧
    (((Model.mk (Coordinate.mk (0 : Vec 3) 2 0)).observe
        (Coordinate.mk (0 : Vec 3) 2 (1 / 10)) 1
        (fun _ => ![1, 0, 0])).coordinate).height ≠
      (Coordinate.mk (0 : Vec 3) 2 0).height := by
  constructor
  · exact le_of_not_lt not_float_zero_lt_mag_zero
  · rw [observe_height_eq, if_neg not_float_zero_lt_mag_zero]
    norm_num [Coordinate.heightAcc, MIN_HEIGHT]

/-- Claim C1: the new local error stored by `observe` is
`es · 0.25 · w + eᵢ · (1 − 0.25 · w)` with `w = eᵢ / (eᵢ + eⱼ)` computed
from the pre-call errors and `es = |dist − rtt| / rtt`,
`dist = estimate_rtt(local, remote)` in seconds. -/
theorem observe_error_update (m : Model n) (coord : Coordinate n) (rtt : ℝ)
    (sample : ℕ → Vec n) (h : 0 < rtt) :
    ((m.observe coord rtt sample).coordinate).error =
      (|estimate_rtt_secs m.coordinate coord - rtt| / rtt) * 0.25
          * (m.coordinate.error / (m.coordinate.error + coord.error))
        + m.coordinate.error
          * (1 - 0.25 * (m.coordinate.error / (m.coordinate.error + coord.error))) :=
  rfl

/-- Witness for C1 at a concrete positive-RTT call. -/
theorem observe_error_update_witness :
    (((Model.mk (Coordinate.mk (0 : Vec 3) 2 (1 / 10))).observe
        (Coordinate.mk (0 : Vec 3) 2 (1 / 10)) 1
        (fun _ => ![1, 0, 0])).coordinate).error =
      (|estimate_rtt_secs (Model.mk (Coordinate.mk (0 : Vec 3) 2 (1 / 10))).coordinate
          (Coordinate.mk (0 : Vec 3) 2 (1 / 10)) - 1| / 1) * 0.25
          * ((Model.mk (Coordinate.mk (0 : Vec 3) 2 (1 / 10))).coordinate.error
            / ((Model.mk (Coordinate.mk (0 : Vec 3) 2 (1 / 10))).coordinate.error
              + (Coordinate.mk (0 : Vec 3) 2 (1 / 10)).error))
        + (Model.mk (Coordinate.mk (0 : Vec 3) 2 (1 / 10))).coordinate.error
          * (1 - 0.25
            * ((Model.mk (Coordinate.mk (0 : Vec 3) 2 (1 / 10))).coordinate.error
              / ((Model.mk (Coordinate.mk (0 : Vec 3) 2 (1 / 10))).coordinate.error
                + (Coordinate.mk (0 : Vec 3) 2 (1 / 10)).error))) :=
  observe_error_update _ _ _ _ (by norm_num)

/-- Counterexample to C8 as stated: its preconditions admit a call with
both errors zero (finite and non-negative), where the sample-weight
division of `observe` computes `0.0 / 0.0` — in `f64` arithmetic this is
NaN, it propagates through the error update, and the stored error is NaN,
not a finite non-negative real.  At this concrete input all the claim's
preconditions hold yet the f64-faithful error computation yields no real
number. -/
theorem observe_error_nan_at_zero_errors :
    (0 : ℝ) < 1 ∧
    0 ≤ (Model.mk (Coordinate.mk (0 : Vec 3) 0 1)).coordinate.error ∧
    0 ≤ (Coordinate.mk (0 : Vec 3) 0 1).error ∧
    observe_error_f64 (Model.mk (Coordinate.mk (0 : Vec 3) 0 1))
      (Coordinate.mk (0 : Vec 3) 0 1) 1 = none := by
  have h0 : (Model.mk (Coordinate.mk (0 : Vec 3) 0 1)).coordinate.error
      + (Coordinate.mk (0 : Vec 3) 0 1).error = 0 := by norm_num
  refine ⟨by norm_num, le_refl 0, le_refl 0, ?_⟩
  unfold observe_error_f64
  rw [if_pos h0]

/-- Claim C8 (amended): given a positive RTT, non-negative pre-call errors
and a non-vanishing weight divisor `eᵢ + eⱼ` (at least one error strictly
positive), the error update stays within the reals — the f64-level
computation agrees with the stored error — and the stored error is
non-negative. -/
theorem observe_error_nonneg_pos_denom (m : Model n) (coord : Coordinate n)
    (rtt : ℝ) (sample : ℕ → Vec n) (hrtt : 0 < rtt)
    (hei : 0 ≤ m.coordinate.error) (hej : 0 ≤ coord.error)
    (hsum : 0 < m.coordinate.error + coord.error) :
    observe_error_f64 m coord rtt
        = some (((m.observe coord rtt sample).coordinate).error) ∧
    0 ≤ ((m.observe coord rtt sample).coordinate).error := by
  have h0 : (0 : ℝ) ≤ |estimate_rtt_secs m.coordinate coord - rtt| / rtt :=
    div_nonneg (abs_nonneg _) hrtt.le
  have hw0 : 0 ≤ m.coordinate.error / (m.coordinate.error + coord.error) :=
    div_nonneg hei (add_nonneg hei hej)
  have hw1 : m.coordinate.error / (m.coordinate.error + coord.error) ≤ 1 :=
    (div_le_one hsum).mpr (le_add_of_nonneg_right hej)
  have hE : ERROR_LIMIT = 0.25 := rfl
  have hnn : 0 ≤ ((m.observe coord rtt sample).coordinate).error := by
    show 0 ≤ (|estimate_rtt_secs m.coordinate coord - rtt| / rtt) * ERROR_LIMIT
        * (m.coordinate.error / (m.coordinate.error + coord.error))
      + m.coordinate.error * (1 - ERROR_LIMIT
        * (m.coordinate.error / (m.coordinate.error + coord.error)))
    refine add_nonneg (mul_nonneg (mul_nonneg h0 (by rw [hE]; norm_num)) hw0)
      (mul_nonneg hei ?_)
    rw [hE]
    nlinarith
  refine ⟨?_, hnn⟩
  unfold observe_error_f64
  rw [if_neg (ne_of_gt hsum)]
  rfl

/-- Witness for the amended C8 at a concrete call with positive RTT,
non-negative errors and a positive weight divisor. -/
theorem observe_error_nonneg_pos_denom_witness :
    observe_error_f64 (Model.mk (Coordinate.mk (0 : Vec 3) 2 (1 / 10)))
        (Coordinate.mk (0 : Vec 3) 2 (1 / 10)) 1
      = some ((((Model.mk (Coordinate.mk (0 : Vec 3) 2 (1 / 10))).observe
          (Coordinate.mk (0 : Vec 3) 2 (1 / 10)) 1
          (fun _ => ![1, 0, 0])).coordinate).error) ∧
    0 ≤ (((Model.mk (Coordinate.mk (0 : Vec 3) 2 (1 / 10))).observe
        (Coordinate.mk (0 : Vec 3) 2 (1 / 10)) 1
        (fun _ => ![1, 0, 0])).coordinate).error :=
  observe_error_nonneg_pos_denom _ _ _ _ (by norm_num) (by norm_num)
    (by norm_num) (by norm_num)

/-- A constant sample stream of `[1, 0, 0]` passes the fallback's
magnitude test on its first draw. -/
theorem sample_one_good :
    FLOAT_ZERO < magnitude ((fun _ : ℕ => (![1, 0, 0] : Vec 3)) 0) := by
  show FLOAT_ZERO < magnitude (![1, 0, 0] : Vec 3)
  rw [magnitude_single 1 (by norm_num)]
  norm_num [FLOAT_ZERO]

/-- Claim C4: `observe` never divides a vector by a vanishing magnitude —
below the 1e-8 difference threshold the unit direction is the random
fallback, the fallback only normalises a sample whose magnitude exceeds
1e-8, and in all cases the unit direction is some vector divided by its
own magnitude, which is at least 1e-8. -/
theorem observe_unit_divisor_bounded (self coord : Coordinate n)
    (sample : ℕ → Vec n) (h : ∃ k, FLOAT_ZERO < magnitude (sample k)) :
    (magnitude (self.vector - coord.vector) < FLOAT_ZERO →
      observe_unit_vec self coord sample = new_random_unit_vec sample) ∧
    FLOAT_ZERO < magnitude (sample (chosen_index sample)) ∧
    ∃ v, FLOAT_ZERO ≤ magnitude v ∧
      observe_unit_vec self coord sample = Vec.div v (magnitude v) := by
  have hfind : FLOAT_ZERO < magnitude (sample (chosen_index sample)) := by
    unfold chosen_index
    rw [dif_pos h]
    exact Nat.find_spec h
  refine ⟨?_, hfind, ?_⟩
  · intro hlt
    simp only [observe_unit_vec, unit_vector_for]
    rw [if_pos hlt]
  · by_cases hlt : magnitude (self.vector - coord.vector) < FLOAT_ZERO
    · refine ⟨sample (chosen_index sample), le_of_lt hfind, ?_⟩
      simp only [observe_unit_vec, unit_vector_for]
      rw [if_pos hlt]
      rfl
    · refine ⟨self.vector - coord.vector, le_of_not_lt hlt, ?_⟩
      simp only [observe_unit_vec, unit_vector_for]
      rw [if_neg hlt]

/-- Witness for C4 at coincident coordinates with a unit sample stream. -/
theorem observe_unit_divisor_bounded_witness :
    (∃ k, FLOAT_ZERO < magnitude ((fun _ : ℕ => (![1, 0, 0] : Vec 3)) k)) ∧
    ((magnitude ((Coordinate.mk (0 : Vec 3) 2 (1 / 10)).vector
          - (Coordinate.mk (0 : Vec 3) 2 (1 / 10)).vector) < FLOAT_ZERO →
        observe_unit_vec (Coordinate.mk (0 : Vec 3) 2 (1 / 10))
            (Coordinate.mk (0 : Vec 3) 2 (1 / 10))
            (fun _ : ℕ => (![1, 0, 0] : Vec 3)) =
          new_random_unit_vec (fun _ : ℕ => (![1, 0, 0] : Vec 3))) ∧
      FLOAT_ZERO < magnitude ((fun _ : ℕ => (![1, 0, 0] : Vec 3))
        (chosen_index (fun _ : ℕ => (![1, 0, 0] : Vec 3)))) ∧
      ∃ v, FLOAT_ZERO ≤ magnitude v ∧
        observe_unit_vec (Coordinate.mk (0 : Vec 3) 2 (1 / 10))
            (Coordinate.mk (0 : Vec 3) 2 (1 / 10))
            (fun _ : ℕ => (![1, 0, 0] : Vec 3)) = Vec.div v (magnitude v)) :=
  ⟨⟨0, sample_one_good⟩,
    observe_unit_divisor_bounded _ _ _ ⟨0, sample_one_good⟩⟩
